import Mathlib

/-!
Verification of the bucket-normalization pipeline of `src/app.py`
(ImageMart Artists Performance Stats dashboard).

The Python code is a pandas pipeline.  We embed it shallowly:

* a CSV cell for the `jobs_count` column is modelled by `Cell`:
  `pd.to_numeric(..., errors="coerce")` turns a numeric cell into its
  number and anything else into NaN; `.fillna(0)` turns NaN (and a
  missing value) into 0; `.astype(int)` yields the integer value.  We
  carry the resulting integer directly in `Cell.num`;
* the categorical coercion `pd.Categorical(df["bucket"],
  categories=BUCKET_ORDER)` (app.py line 91) sends a bucket string to
  `some b` when `b` is a known bucket and to `none` (NaN) otherwise;
* the left merge of `ensure_all_buckets` (app.py lines 101-104) keeps,
  for each bucket of the left frame, one output row per matching
  right-frame row (in right-frame order), and a single zero-filled row
  when there is no match — this is exactly pandas `merge(..., how="left")`
  followed by `fillna({"jobs_count": 0})`;
* floating-point shares are modelled with exact rationals `ℚ`;
  rounding happens only at presentation time in the source, so the
  rational value is the mathematical content of the float.
-/

/-- `BUCKET_ORDER` of app.py lines 53-56: the fixed bucket order,
with the overflow bucket stored under the sort-key sentinel `z100+`. -/
def BUCKET_ORDER : List String :=
  ["00-10", "11-20", "21-30", "31-40", "41-50",
   "51-60", "61-70", "71-80", "81-90", "91-100", "z100+"]

/-- The display rendering of one bucket code: `z100+` becomes `100+`, every
other code is unchanged.  app.py applies it twice: line 58 as the Python
substring replace `b.replace("z100+", "100+")` — which, over the 11 fixed
labels, rewrites exactly the label that *is* `z100+`, since no other label
contains that substring — and line 122 as the pandas dict replace
`.replace({"z100+": "100+"})`, which is an exact-value map by definition. -/
def displayLabel (b : String) : String :=
  if b = "z100+" then "100+" else b

/-- `BUCKET_ORDER_DISPLAY` of app.py line 58. -/
def BUCKET_ORDER_DISPLAY : List String :=
  BUCKET_ORDER.map displayLabel

/-- A raw `jobs_count` cell, as seen by
`pd.to_numeric(..., errors="coerce").fillna(0).astype(int)` (app.py line 88):
`num n` is a numeric cell whose integer coercion is `n` (possibly negative),
`text` is a non-numeric cell (coerced to NaN), `missing` is an empty cell. -/
inductive Cell where
  | missing : Cell
  | num : Int → Cell
  | text : Cell
deriving DecidableEq, Repr

/-- The coercion of app.py line 88: numeric cells keep their integer value,
NaN (non-numeric or missing) becomes 0. -/
def coerce_jobs_count : Cell → Int
  | Cell.missing => 0
  | Cell.num n => n
  | Cell.text => 0

/-- One raw CSV row with the three required columns. -/
structure Row where
  artist : String
  bucket : String
  jobs_count : Cell
deriving DecidableEq, Repr

/-- The categorical coercion of app.py line 91: a bucket value outside
`BUCKET_ORDER` becomes NaN (`none`). -/
def toCategorical (b : String) : Option String :=
  if b ∈ BUCKET_ORDER then some b else none

/-- One loaded record, after app.py lines 88 and 91. -/
structure Record where
  artist : String
  bucket : Option String
  jobs_count : Int
deriving DecidableEq, Repr

/-- Loading one raw row (app.py lines 87-91). -/
def toRecord (r : Row) : Record :=
  { artist := r.artist
    bucket := toCategorical r.bucket
    jobs_count := coerce_jobs_count r.jobs_count }

/-- A tabular source: its column names and its rows.  A row carries the
three modelled fields; when a required column is absent the rows are never
read (the load fails first), so this loses nothing. -/
structure Csv where
  columns : List String
  rows : List Row

/-- The required-column set of app.py line 81. -/
def EXPECTED : List String := ["artist", "bucket", "jobs_count"]

/-- The data carried by the `ValueError` of app.py lines 83-85: its message
spells out the file, the three required column names
(`"... must have columns: artist, bucket, jobs_count"`) and the columns
found.  `requiredNamed` is the list of column names the message spells out. -/
structure SchemaError where
  path : String
  requiredNamed : List String
  found : List String
deriving DecidableEq, Repr

/-- The two failures of `load_dataset` (app.py lines 74-85):
`FileNotFoundError` and the schema `ValueError`. -/
inductive LoadError where
  | notFound : String → LoadError
  | schema : SchemaError → LoadError
deriving DecidableEq, Repr

/-- `load_dataset` of app.py lines 72-93.  The filesystem is a map from
path to source (`none` when the file does not exist).  Existence is
checked first (line 74), then the required columns (lines 81-85), then
each row is coerced (lines 88, 91). -/
def load_dataset (fs : String → Option Csv) (path : String) :
    Except LoadError (List Record) :=
  match fs path with
  | none => Except.error (LoadError.notFound path)
  | some csv =>
    if EXPECTED.all (fun c => csv.columns.contains c) then
      Except.ok (csv.rows.map toRecord)
    else
      Except.error (LoadError.schema ⟨path, EXPECTED, csv.columns⟩)

/-- One row of the normalized per-artist frame (bucket and count columns). -/
structure SeriesEntry where
  bucket : String
  jobs_count : Int
deriving DecidableEq, Repr

/-- The rows of `artist_data` matching bucket `b` (the right side of the
merge of app.py line 102 for the left-frame key `b`). -/
def matchesFor (rows : List Record) (b : String) : List Record :=
  rows.filter (fun r => r.bucket == some b)

/-- The merge output rows for left-frame key `b` (app.py lines 101-105):
one row per match, in input order; a single zero-filled row when no
match exists (`how="left"` plus `fillna({"jobs_count": 0})`). -/
def entriesFor (rows : List Record) (b : String) : List SeriesEntry :=
  let ms := matchesFor rows b
  if ms.isEmpty then [⟨b, 0⟩]
  else ms.map (fun r => ⟨b, r.jobs_count⟩)

/-- `ensure_all_buckets` of app.py lines 96-106: left-merge the full
bucket list with the artist's rows. -/
def ensure_all_buckets (artist_data : List Record) : List SeriesEntry :=
  BUCKET_ORDER.flatMap (entriesFor artist_data)

/-- `artist_raw` of app.py line 204: the current dataset filtered to the
selected artist. -/
def artist_raw (df : List Record) (a : String) : List Record :=
  df.filter (fun r => r.artist == a)

/-- `artist_df` of app.py lines 206-211: an all-zero frame when the artist
has no rows, otherwise `ensure_all_buckets` of the artist's rows. -/
def artist_df (df : List Record) (a : String) : List SeriesEntry :=
  let raw := artist_raw df a
  if raw.isEmpty then BUCKET_ORDER.map (fun b => ⟨b, 0⟩)
  else ensure_all_buckets raw

/-- One row of the annotated frame produced by `add_percent_share`. -/
structure ShareEntry where
  bucket : String
  jobs_count : Int
  pct_share : ℚ
  bucket_label : String
deriving DecidableEq, Repr

/-- `int(out["jobs_count"].sum())` (app.py line 112). -/
def seriesTotal (df : List SeriesEntry) : Int :=
  (df.map (fun e => e.jobs_count)).sum

/-- `add_percent_share` of app.py lines 109-124: `pct_share` is
`jobs_count / total * 100.0` when `total > 0` and `0.0` otherwise
(lines 113-116, modelled in exact rational arithmetic); `bucket_label`
is the bucket with the exact value `z100+` replaced by `100+`
(line 122, a pandas dict `replace`, which is an exact-value map). -/
def add_percent_share (df : List SeriesEntry) : List ShareEntry :=
  let total := seriesTotal df
  df.map (fun e =>
    { bucket := e.bucket
      jobs_count := e.jobs_count
      pct_share :=
        if 0 < total then (e.jobs_count : ℚ) / (total : ℚ) * 100 else 0
      bucket_label := displayLabel e.bucket })

/-- The full per-artist derivation (app.py lines 204-213). -/
def artistSeries (df : List Record) (a : String) : List ShareEntry :=
  add_percent_share (artist_df df a)

/-- `total_jobs` of app.py line 219. -/
def total_jobs (s : List ShareEntry) : Int :=
  (s.map (fun e => e.jobs_count)).sum

/-- `over_100` of app.py line 220: the summed count of the series rows
whose `bucket` column is `z100+`. -/
def over_100 (s : List ShareEntry) : Int :=
  ((s.filter (fun e => e.bucket == "z100+")).map (fun e => e.jobs_count)).sum

/-- What the third metric widget renders (app.py line 225):
a percentage when `total_jobs` is non-zero (Python truthiness of the int),
the placeholder string `—` otherwise. -/
inductive MetricDisplay where
  | pctText : ℚ → MetricDisplay
  | placeholder : MetricDisplay
deriving DecidableEq, Repr

/-- app.py line 225: `f"...{over_100 / total_jobs * 100:.1f}%" if total_jobs else "—"`. -/
def m3_metric (s : List ShareEntry) : MetricDisplay :=
  if total_jobs s ≠ 0 then
    MetricDisplay.pctText ((over_100 s : ℚ) / (total_jobs s : ℚ) * 100)
  else
    MetricDisplay.placeholder

/-! ## Structural lemmas about the pipeline -/

theorem BUCKET_ORDER_nodup : BUCKET_ORDER.Nodup := by decide

theorem entriesFor_bucket (rows : List Record) (b : String) :
    ∀ e ∈ entriesFor rows b, e.bucket = b := by
  intro e he
  unfold entriesFor at he
  by_cases h : (matchesFor rows b).isEmpty
  · simp [h] at he
    simp [he]
  · simp [h] at he
    obtain ⟨r, _, hr⟩ := he
    simp [← hr]

theorem entriesFor_count_sum (rows : List Record) (b : String) :
    ((entriesFor rows b).map (fun e => e.jobs_count)).sum
      = ((matchesFor rows b).map (fun r => r.jobs_count)).sum := by
  unfold entriesFor
  by_cases h : (matchesFor rows b).isEmpty
  · rw [List.isEmpty_iff] at h
    simp [h]
  · rw [if_neg h, List.map_map]
    rfl

theorem entriesFor_nil (b : String) : entriesFor [] b = [⟨b, 0⟩] := by
  simp [entriesFor, matchesFor]

theorem flatMap_singletonFun {α β : Type} (l : List α) (g : α → β) :
    l.flatMap (fun x => [g x]) = l.map g := by
  induction l with
  | nil => rfl
  | cons a l ih => simp [List.flatMap_cons, ih]

/-- The two branches of app.py lines 206-211 coincide with running
`ensure_all_buckets` on the filtered rows in every case: when the artist
has no rows the left merge matches nothing and zero-fills every bucket. -/
theorem artist_df_eq (df : List Record) (a : String) :
    artist_df df a = ensure_all_buckets (artist_raw df a) := by
  unfold artist_df
  by_cases h : (artist_raw df a).isEmpty
  · rw [List.isEmpty_iff] at h
    simp only [h, List.isEmpty_nil, if_true]
    unfold ensure_all_buckets
    rw [show (entriesFor [] : String → List SeriesEntry)
          = fun b => [⟨b, 0⟩] from funext entriesFor_nil]
    exact (flatMap_singletonFun BUCKET_ORDER _).symm
  · simp [h]

theorem matchesFor_cons (r : Record) (rs : List Record) (b : String) :
    matchesFor (r :: rs) b
      = if r.bucket = some b then r :: matchesFor rs b else matchesFor rs b := by
  unfold matchesFor
  rw [List.filter_cons]
  by_cases h : r.bucket = some b <;> simp [h]

theorem sum_if_not_mem (l : List String) (s : String) (c : Int) (h : s ∉ l) :
    (l.map (fun b => if s = b then c else 0)).sum = 0 := by
  induction l with
  | nil => rfl
  | cons a l ih =>
    simp only [List.mem_cons, not_or] at h
    simp [h.1, ih h.2]

theorem sum_if_mem (l : List String) (hl : l.Nodup) (s : String) (hs : s ∈ l)
    (c : Int) : (l.map (fun b => if s = b then c else 0)).sum = c := by
  induction l with
  | nil => cases hs
  | cons a l ih =>
    rw [List.nodup_cons] at hl
    rcases List.mem_cons.mp hs with h | h
    · subst h
      simp [sum_if_not_mem l s c hl.1]
    · have hsa : s ≠ a := fun hsa => hl.1 (hsa ▸ h)
      simp [hsa, ih hl.2 h]

theorem sum_map_add_pointwise {α : Type} (l : List α) (f g : α → Int) :
    (l.map (fun x => f x + g x)).sum = (l.map f).sum + (l.map g).sum := by
  induction l with
  | nil => rfl
  | cons a l ih => simp [ih]; ring

/-- Partitioning a row list by bucket: when every row's bucket lies in the
(duplicate-free) bucket list, the per-bucket match sums add up to the sum
over all rows. -/
theorem sum_matches_partition (l : List String) (hl : l.Nodup) :
    ∀ rows : List Record, (∀ r ∈ rows, ∃ b ∈ l, r.bucket = some b) →
      (l.map (fun b => ((matchesFor rows b).map (fun r => r.jobs_count)).sum)).sum
        = (rows.map (fun r => r.jobs_count)).sum := by
  intro rows
  induction rows with
  | nil =>
    intro _
    simp [matchesFor]
  | cons r rs ih =>
    intro hrows
    obtain ⟨b0, hb0l, hb0⟩ := hrows r (List.mem_cons_self r rs)
    have step : ∀ b : String,
        ((matchesFor (r :: rs) b).map (fun x => x.jobs_count)).sum
          = (if b0 = b then r.jobs_count else 0)
            + ((matchesFor rs b).map (fun x => x.jobs_count)).sum := by
      intro b
      rw [matchesFor_cons]
      by_cases h : r.bucket = some b
      · have : b0 = b := by
          rw [hb0] at h
          exact Option.some.injEq _ _ ▸ h
        simp [h, this]
      · have : b0 ≠ b := fun hb => h (hb ▸ hb0)
        simp [h, this]
    calc (l.map (fun b => ((matchesFor (r :: rs) b).map (fun x => x.jobs_count)).sum)).sum
        = (l.map (fun b => (if b0 = b then r.jobs_count else 0)
            + ((matchesFor rs b).map (fun x => x.jobs_count)).sum)).sum := by
          exact congrArg List.sum (List.map_congr_left (fun b _ => step b))
      _ = (l.map (fun b => if b0 = b then r.jobs_count else 0)).sum
            + (l.map (fun b => ((matchesFor rs b).map (fun x => x.jobs_count)).sum)).sum :=
          sum_map_add_pointwise l _ _
      _ = r.jobs_count + (rs.map (fun x => x.jobs_count)).sum := by
          rw [sum_if_mem l hl b0 hb0l r.jobs_count,
            ih (fun x hx => hrows x (List.mem_cons_of_mem r hx))]
      _ = ((r :: rs).map (fun x => x.jobs_count)).sum := by simp

theorem sum_flatMap_counts (l : List String) (rows : List Record) :
    ((l.flatMap (entriesFor rows)).map (fun e => e.jobs_count)).sum
      = (l.map (fun b => ((matchesFor rows b).map (fun r => r.jobs_count)).sum)).sum := by
  induction l with
  | nil => rfl
  | cons a l ih =>
    rw [List.flatMap_cons, List.map_append, List.sum_append, ih,
      List.map_cons, List.sum_cons, entriesFor_count_sum]


/-! ## Lemmas about `add_percent_share` -/

theorem total_jobs_add_percent_share (df : List SeriesEntry) :
    total_jobs (add_percent_share df) = seriesTotal df := by
  unfold total_jobs add_percent_share seriesTotal
  rw [List.map_map]
  rfl

theorem add_percent_share_entry (df : List SeriesEntry) (x : ShareEntry)
    (hx : x ∈ add_percent_share df) :
    ∃ e ∈ df, x.bucket = e.bucket ∧ x.jobs_count = e.jobs_count
      ∧ x.pct_share
          = (if 0 < seriesTotal df
             then (e.jobs_count : ℚ) / (seriesTotal df : ℚ) * 100 else 0)
      ∧ x.bucket_label = displayLabel e.bucket := by
  unfold add_percent_share at hx
  obtain ⟨e, he, hfe⟩ := List.mem_map.mp hx
  exact ⟨e, he, by rw [← hfe], by rw [← hfe], by rw [← hfe], by rw [← hfe]⟩

theorem pct_share_values (df : List SeriesEntry) :
    (add_percent_share df).map (fun x => x.pct_share)
      = df.map (fun e =>
          if 0 < seriesTotal df
          then (e.jobs_count : ℚ) / (seriesTotal df : ℚ) * 100 else 0) := by
  unfold add_percent_share
  rw [List.map_map]
  rfl

theorem sum_map_div_mul (l : List Int) (t : ℚ) :
    (l.map (fun n : Int => (n : ℚ) / t * 100)).sum = ((l.sum : Int) : ℚ) / t * 100 := by
  induction l with
  | nil => simp
  | cons a l ih =>
    simp only [List.map_cons, List.sum_cons, ih]
    push_cast
    ring

theorem sum_pct_share (df : List SeriesEntry) (ht : 0 < seriesTotal df) :
    ((add_percent_share df).map (fun x => x.pct_share)).sum = 100 := by
  rw [pct_share_values]
  have h1 : df.map (fun e =>
        if 0 < seriesTotal df
        then (e.jobs_count : ℚ) / (seriesTotal df : ℚ) * 100 else 0)
      = (df.map (fun e => e.jobs_count)).map
          (fun n : Int => (n : ℚ) / (seriesTotal df : ℚ) * 100) := by
    rw [List.map_map]
    exact List.map_congr_left (fun e _ => by simp [ht])
  rw [h1, sum_map_div_mul]
  have h2 : (df.map (fun e => e.jobs_count)).sum = seriesTotal df := rfl
  have h3 : (seriesTotal df : ℚ) ≠ 0 :=
    Int.cast_ne_zero.mpr (ne_of_gt ht)
  rw [h2, div_self h3, one_mul]

/-! ## Filtering the normalized series by bucket -/

theorem filter_entriesFor_self (rows : List Record) (b : String) :
    (entriesFor rows b).filter (fun e => e.bucket == b) = entriesFor rows b :=
  List.filter_eq_self.mpr
    (fun e he => by simp [entriesFor_bucket rows b e he])

theorem filter_entriesFor_ne (rows : List Record) (bb b : String) (h : bb ≠ b) :
    (entriesFor rows bb).filter (fun e => e.bucket == b) = [] :=
  List.filter_eq_nil_iff.mpr
    (fun e he => by simp [entriesFor_bucket rows bb e he, h])

theorem filter_flatMap_not_mem (l : List String) (rows : List Record)
    (b : String) (h : b ∉ l) :
    (l.flatMap (entriesFor rows)).filter (fun e => e.bucket == b) = [] := by
  induction l with
  | nil => rfl
  | cons a l ih =>
    simp only [List.mem_cons, not_or] at h
    rw [List.flatMap_cons, List.filter_append,
      filter_entriesFor_ne rows a b (fun hab => h.1 hab.symm), ih h.2,
      List.append_nil]

theorem filter_flatMap_entriesFor (l : List String) (hl : l.Nodup)
    (rows : List Record) (b : String) (hb : b ∈ l) :
    (l.flatMap (entriesFor rows)).filter (fun e => e.bucket == b)
      = entriesFor rows b := by
  induction l with
  | nil => cases hb
  | cons a l ih =>
    rw [List.nodup_cons] at hl
    rw [List.flatMap_cons, List.filter_append]
    rcases List.mem_cons.mp hb with h | h
    · subst h
      rw [filter_entriesFor_self, filter_flatMap_not_mem l rows b hl.1,
        List.append_nil]
    · have hab : a ≠ b := fun hab => hl.1 (hab ▸ h)
      rw [filter_entriesFor_ne rows a b hab, List.nil_append, ih hl.2 h]

/-! ## Rows with an unknown (NaN) bucket are invisible downstream -/

theorem matchesFor_middle_none (l1 l2 : List Record) (r : Record)
    (h : r.bucket = none) (b : String) :
    matchesFor (l1 ++ r :: l2) b = matchesFor (l1 ++ l2) b := by
  unfold matchesFor
  rw [List.filter_append, List.filter_append, List.filter_cons]
  simp [h]

theorem ensure_middle_none (l1 l2 : List Record) (r : Record)
    (h : r.bucket = none) :
    ensure_all_buckets (l1 ++ r :: l2) = ensure_all_buckets (l1 ++ l2) := by
  unfold ensure_all_buckets
  exact List.flatMap_congr (fun b _ => by
    unfold entriesFor
    rw [matchesFor_middle_none l1 l2 r h b])

theorem artist_df_middle_unknown (df1 df2 : List Record) (r : Record)
    (a : String) (h : r.bucket = none) :
    artist_df (df1 ++ r :: df2) a = artist_df (df1 ++ df2) a := by
  rw [artist_df_eq, artist_df_eq]
  unfold artist_raw
  rw [List.filter_append, List.filter_append, List.filter_cons]
  by_cases ha : (r.artist == a) = true
  · rw [if_pos ha]
    exact ensure_middle_none _ _ r h
  · rw [if_neg ha]

/-! ## More helpers: singleton merges, zero fill, filter/map commutation -/

theorem entriesFor_singleton (rows : List Record) (b : String)
    (h : (matchesFor rows b).length ≤ 1) :
    ∃ c : Int, entriesFor rows b = [⟨b, c⟩] := by
  unfold entriesFor
  cases hm : matchesFor rows b with
  | nil => exact ⟨0, rfl⟩
  | cons r rs =>
    rw [hm] at h
    have hrs : rs = [] := by
      rw [List.length_cons] at h
      exact List.eq_nil_of_length_eq_zero (by omega)
    subst hrs
    exact ⟨r.jobs_count, by simp⟩

theorem flatMap_buckets_of_singleton (l : List String)
    (f : String → List SeriesEntry)
    (hf : ∀ b ∈ l, ∃ c : Int, f b = [⟨b, c⟩]) :
    (l.flatMap f).map (fun e => e.bucket) = l := by
  induction l with
  | nil => rfl
  | cons a l ih =>
    obtain ⟨c, hc⟩ := hf a (List.mem_cons_self a l)
    rw [List.flatMap_cons, List.map_append, hc,
      ih (fun b hb => hf b (List.mem_cons_of_mem _ hb))]
    rfl

theorem series_zero_when_absent (records : List Record) (a : String) :
    ∀ x ∈ artistSeries records a,
      (∀ r ∈ artist_raw records a, r.bucket ≠ some x.bucket) →
        x.jobs_count = 0 := by
  intro x hx habs
  obtain ⟨e, he, hb, hj, _, _⟩ :=
    add_percent_share_entry (artist_df records a) x hx
  rw [artist_df_eq] at he
  unfold ensure_all_buckets at he
  obtain ⟨b, hbl, hbe⟩ := List.mem_flatMap.mp he
  have hbb : e.bucket = b := entriesFor_bucket _ b e hbe
  have hm : matchesFor (artist_raw records a) b = [] :=
    List.filter_eq_nil_iff.mpr (fun r hr => by
      have hrb := habs r hr
      rw [hb, hbb] at hrb
      simp [hrb])
  unfold entriesFor at hbe
  rw [hm] at hbe
  simp only [List.isEmpty_nil, if_true, List.mem_singleton] at hbe
  rw [hj, hbe]

theorem filter_map_comm {α β : Type} (l : List α) (f : α → β) (p : β → Bool) :
    (l.map f).filter p = (l.filter (fun x => p (f x))).map f := by
  induction l with
  | nil => rfl
  | cons a l ih =>
    simp only [List.map_cons, List.filter_cons]
    by_cases h : p (f a) <;> simp [h, ih]

theorem filter_add_percent_share (df : List SeriesEntry) (b : String) :
    (add_percent_share df).filter (fun x => x.bucket == b)
      = (df.filter (fun e => e.bucket == b)).map (fun e =>
          ({ bucket := e.bucket, jobs_count := e.jobs_count
             pct_share :=
               if 0 < seriesTotal df
               then (e.jobs_count : ℚ) / (seriesTotal df : ℚ) * 100 else 0
             bucket_label := displayLabel e.bucket } : ShareEntry)) := by
  unfold add_percent_share
  exact filter_map_comm df _ _

/-- Reduction of `load_dataset` when the file exists. -/
theorem load_dataset_some (fs : String → Option Csv) (path : String)
    (csv : Csv) (hfs : fs path = some csv) :
    load_dataset fs path
      = if EXPECTED.all (fun c => csv.columns.contains c) then
          Except.ok (csv.rows.map toRecord)
        else
          Except.error (LoadError.schema ⟨path, EXPECTED, csv.columns⟩) := by
  unfold load_dataset
  rw [hfs]

/-! ## Claim theorems -/

/-- C8: `load_dataset` fails with the not-found error exactly when the
backing file does not exist; existence is the first check (app.py line 74),
so no dataset is produced and nothing is parsed in that case — the `Except`
result is the error and carries no records. -/
theorem C8_not_found_iff (fs : String → Option Csv) (path : String) :
    load_dataset fs path = Except.error (LoadError.notFound path)
      ↔ fs path = none := by
  constructor
  · intro h
    cases hfs : fs path with
    | none => rfl
    | some csv =>
      rw [load_dataset_some fs path csv hfs] at h
      by_cases hc : (EXPECTED.all (fun c => csv.columns.contains c)) = true
      · rw [if_pos hc] at h
        exact absurd h (by simp)
      · rw [if_neg hc] at h
        exact absurd h (by simp)
  · intro h
    unfold load_dataset
    rw [h]

/-- C8 witness: on an empty filesystem the load of `time_to_complete.csv`
is exactly the not-found error. -/
theorem C8_witness :
    load_dataset (fun _ => none) "time_to_complete.csv"
      = Except.error (LoadError.notFound "time_to_complete.csv") :=
  (C8_not_found_iff (fun _ => none) "time_to_complete.csv").mpr rfl

/-- C7: with the file present, `load_dataset` fails with a schema error
exactly when one of `artist`, `bucket`, `jobs_count` is absent from the
columns, and the error's message spells out every required column name —
hence each missing column's name in particular (app.py lines 81-85). -/
theorem C7_schema_error_iff (fs : String → Option Csv) (path : String)
    (csv : Csv) (hfs : fs path = some csv) :
    ((∃ err : SchemaError,
        load_dataset fs path = Except.error (LoadError.schema err))
      ↔ ∃ c ∈ EXPECTED, c ∉ csv.columns)
    ∧ ∀ err : SchemaError,
        load_dataset fs path = Except.error (LoadError.schema err) →
          ∀ c ∈ EXPECTED, c ∉ csv.columns → c ∈ err.requiredNamed := by
  rw [load_dataset_some fs path csv hfs]
  by_cases hc : (EXPECTED.all (fun c => csv.columns.contains c)) = true
  · rw [if_pos hc]
    rw [List.all_eq_true] at hc
    refine ⟨⟨fun ⟨err, herr⟩ => absurd herr (by simp), ?_⟩,
      fun err herr => absurd herr (by simp)⟩
    rintro ⟨c, hce, hcc⟩
    exact absurd (by simpa using hc c hce) hcc
  · rw [if_neg hc]
    refine ⟨⟨fun _ => ?_, fun _ => ⟨_, rfl⟩⟩, ?_⟩
    · rw [List.all_eq_true] at hc
      push_neg at hc
      obtain ⟨c, hce, hcc⟩ := hc
      exact ⟨c, hce, by simpa using hcc⟩
    · intro err herr c hce _
      have herr2 : (⟨path, EXPECTED, csv.columns⟩ : SchemaError) = err := by
        simpa using herr
      rw [← herr2]
      exact hce

/-- C7 witness: a source missing the `bucket` column is rejected with a
schema error. -/
theorem C7_witness :
    ∃ err : SchemaError,
      load_dataset (fun _ => some ⟨["artist", "jobs_count"], []⟩) "x.csv"
        = Except.error (LoadError.schema err) :=
  ((C7_schema_error_iff (fun _ => some ⟨["artist", "jobs_count"], []⟩)
      "x.csv" ⟨["artist", "jobs_count"], []⟩ rfl).1).mpr
    ⟨"bucket", by decide, by decide⟩

/-- C9: an artist with no rows in the selected dataset is not an error:
the derived series has the full 11 buckets, every count is 0, every share
is 0, the total is 0, and the overflow-share metric renders the placeholder
(the division branch of app.py line 225 is not taken). -/
theorem C9_absent_artist (records : List Record) (a : String)
    (h : ∀ r ∈ records, r.artist ≠ a) :
    (artistSeries records a).length = BUCKET_ORDER.length
      ∧ (∀ x ∈ artistSeries records a, x.jobs_count = 0 ∧ x.pct_share = 0)
      ∧ total_jobs (artistSeries records a) = 0
      ∧ m3_metric (artistSeries records a) = MetricDisplay.placeholder := by
  have hraw : artist_raw records a = [] :=
    List.filter_eq_nil_iff.mpr (fun r hr => by simp [h r hr])
  have hser : artistSeries records a
      = add_percent_share (BUCKET_ORDER.map (fun b => ⟨b, 0⟩)) := by
    unfold artistSeries artist_df
    rw [hraw]
    rfl
  rw [hser]
  exact ⟨by decide, by decide, by decide, by decide⟩

/-- C9 witness: a dataset holding only artist `B`, queried for artist `A`. -/
theorem C9_witness :
    total_jobs (artistSeries [⟨"B", some "00-10", 5⟩] "A") = 0
      ∧ m3_metric (artistSeries [⟨"B", some "00-10", 5⟩] "A")
          = MetricDisplay.placeholder :=
  ⟨(C9_absent_artist [⟨"B", some "00-10", 5⟩] "A" (by decide)).2.2.1,
   (C9_absent_artist [⟨"B", some "00-10", 5⟩] "A" (by decide)).2.2.2⟩

/-- C10: every derived entry's display label is its bucket code rendered
verbatim except the overflow sentinel `z100+`, which renders as `100+`;
no display label is the sentinel, and `BUCKET_ORDER_DISPLAY` (app.py
line 58) lists the 11 display labels ending in `100+`. -/
theorem C10_display_labels (records : List Record) (a : String) :
    BUCKET_ORDER_DISPLAY
        = ["00-10", "11-20", "21-30", "31-40", "41-50",
           "51-60", "61-70", "71-80", "81-90", "91-100", "100+"]
      ∧ ∀ x ∈ artistSeries records a,
          (x.bucket = "z100+" → x.bucket_label = "100+")
          ∧ x.bucket_label ≠ "z100+"
          ∧ (x.bucket ≠ "z100+" → x.bucket_label = x.bucket) := by
  refine ⟨by decide, ?_⟩
  intro x hx
  obtain ⟨e, _, hb, _, _, hl⟩ :=
    add_percent_share_entry (artist_df records a) x hx
  rw [hl, hb]
  unfold displayLabel
  by_cases hz : e.bucket = "z100+"
  · rw [if_pos hz, hz]
    exact ⟨fun _ => rfl, by decide, fun hne => absurd rfl hne⟩
  · rw [if_neg hz]
    exact ⟨fun heq => absurd heq hz, hz, fun _ => rfl⟩

/-- C10 witness: the overflow entry of a concrete series is labelled `100+`. -/
theorem C10_witness :
    ((⟨"z100+", 0, 0, "100+"⟩ : ShareEntry).bucket = "z100+" →
        (⟨"z100+", 0, 0, "100+"⟩ : ShareEntry).bucket_label = "100+")
      ∧ (⟨"z100+", 0, 0, "100+"⟩ : ShareEntry).bucket_label ≠ "z100+" :=
  ⟨((C10_display_labels [⟨"A", some "z100+", 0⟩] "A").2
      ⟨"z100+", 0, 0, "100+"⟩ (by decide)).1,
   ((C10_display_labels [⟨"A", some "z100+", 0⟩] "A").2
      ⟨"z100+", 0, 0, "100+"⟩ (by decide)).2.1⟩

theorem entriesFor_length (rows : List Record) (b : String) :
    (entriesFor rows b).length = max 1 (matchesFor rows b).length := by
  unfold entriesFor
  cases hm : matchesFor rows b with
  | nil => rfl
  | cons r rs =>
    have hmax : max 1 (rs.length + 1) = rs.length + 1 := by omega
    simp [hmax]

/-- C4: when every raw row's bucket code is one of the 11 bucket labels,
the jobs_count total of the derived series equals the jobs_count total of
the raw input rows filtered to the artist. -/
theorem C4_total_consistency (rows : List Row) (a : String)
    (hv : ∀ row ∈ rows, row.bucket ∈ BUCKET_ORDER) :
    total_jobs (artistSeries (rows.map toRecord) a)
      = ((rows.filter (fun row => row.artist == a)).map
          (fun row => coerce_jobs_count row.jobs_count)).sum := by
  unfold artistSeries
  rw [total_jobs_add_percent_share, artist_df_eq]
  unfold ensure_all_buckets seriesTotal
  rw [sum_flatMap_counts]
  have hv2 : ∀ r ∈ artist_raw (rows.map toRecord) a,
      ∃ b ∈ BUCKET_ORDER, r.bucket = some b := by
    intro r hr
    obtain ⟨hr_mem, _⟩ := List.mem_filter.mp hr
    obtain ⟨row, hrow, hrr⟩ := List.mem_map.mp hr_mem
    refine ⟨row.bucket, hv row hrow, ?_⟩
    rw [← hrr]
    show toCategorical row.bucket = some row.bucket
    unfold toCategorical
    rw [if_pos (hv row hrow)]
  rw [sum_matches_partition BUCKET_ORDER BUCKET_ORDER_nodup
    (artist_raw (rows.map toRecord) a) hv2]
  unfold artist_raw
  rw [filter_map_comm rows toRecord (fun r => r.artist == a), List.map_map]
  rfl

/-- C4 witness: concrete rows for two artists; the series total for `A`
equals the raw total of `A` rows. -/
theorem C4_witness :
    total_jobs (artistSeries ([(⟨"A", "00-10", Cell.num 41⟩ : Row),
          ⟨"A", "11-20", Cell.num 143⟩, ⟨"B", "z100+", Cell.num 7⟩].map toRecord) "A")
      = (([(⟨"A", "00-10", Cell.num 41⟩ : Row),
          ⟨"A", "11-20", Cell.num 143⟩, ⟨"B", "z100+", Cell.num 7⟩].filter
            (fun row => row.artist == "A")).map
          (fun row => coerce_jobs_count row.jobs_count)).sum :=
  C4_total_consistency _ "A" (by decide)

/-- C5: a raw row whose bucket code is not one of the 11 labels loads
without error (loading succeeds for any well-columned existing file,
whatever the bucket values) and is invisible downstream: the derived
series, its total and the `over_100` subtotal are exactly what they would
be without the row — the open total-inclusion policy is pinned to
exclusion. -/
theorem C5_unknown_bucket_excluded (rows1 rows2 : List Row) (row : Row)
    (a : String) (h : row.bucket ∉ BUCKET_ORDER) :
    artistSeries ((rows1 ++ row :: rows2).map toRecord) a
        = artistSeries ((rows1 ++ rows2).map toRecord) a
      ∧ total_jobs (artistSeries ((rows1 ++ row :: rows2).map toRecord) a)
          = total_jobs (artistSeries ((rows1 ++ rows2).map toRecord) a)
      ∧ over_100 (artistSeries ((rows1 ++ row :: rows2).map toRecord) a)
          = over_100 (artistSeries ((rows1 ++ rows2).map toRecord) a)
      ∧ ∀ (fs : String → Option Csv) (path : String) (csv : Csv),
          fs path = some csv →
          (EXPECTED.all (fun c => csv.columns.contains c)) = true →
          load_dataset fs path = Except.ok (csv.rows.map toRecord) := by
  have hb : (toRecord row).bucket = none := by
    show toCategorical row.bucket = none
    unfold toCategorical
    rw [if_neg h]
  have hser : artistSeries ((rows1 ++ row :: rows2).map toRecord) a
      = artistSeries ((rows1 ++ rows2).map toRecord) a := by
    unfold artistSeries
    rw [List.map_append, List.map_cons, List.map_append,
      artist_df_middle_unknown (rows1.map toRecord) (rows2.map toRecord)
        (toRecord row) a hb]
  refine ⟨hser, by rw [hser], by rw [hser], ?_⟩
  intro fs path csv hfs hcols
  rw [load_dataset_some fs path csv hfs, if_pos hcols]

/-- C5 witness: a concrete `unknown-code` row changes nothing downstream. -/
theorem C5_witness :
    artistSeries (([] ++ (⟨"A", "unknown-code", Cell.num 9⟩ : Row)
          :: [⟨"A", "00-10", Cell.num 1⟩]).map toRecord) "A"
      = artistSeries (([] ++ [(⟨"A", "00-10", Cell.num 1⟩ : Row)]).map toRecord) "A" :=
  (C5_unknown_bucket_excluded [] [⟨"A", "00-10", Cell.num 1⟩]
    ⟨"A", "unknown-code", Cell.num 9⟩ "A" (by decide)).1

/-- C1 counterexample: two input rows for artist `A` in the same bucket
`00-10` make the left merge of `ensure_all_buckets` emit one series row
per duplicate, so the derived series has 12 entries, not 11. -/
theorem C1_counterexample :
    (artistSeries [⟨"A", some "00-10", 5⟩, ⟨"A", some "00-10", 7⟩] "A").length
      ≠ 11 := by
  decide

/-- C1 amended: provided the artist's rows contain at most one row per
bucket, the derived series has exactly the 11 buckets, in `BUCKET_ORDER`
order, with jobs_count 0 for every bucket absent from the artist's rows
(zero artist rows included); with duplicate artist+bucket rows the merge
emits one entry per duplicate and the series grows beyond 11. -/
theorem C1_series_shape (records : List Record) (a : String)
    (hdup : ∀ b ∈ BUCKET_ORDER,
      (matchesFor (artist_raw records a) b).length ≤ 1) :
    (artistSeries records a).length = BUCKET_ORDER.length
      ∧ (artistSeries records a).map (fun x => x.bucket) = BUCKET_ORDER
      ∧ ∀ x ∈ artistSeries records a,
          (∀ r ∈ artist_raw records a, r.bucket ≠ some x.bucket) →
            x.jobs_count = 0 := by
  have hsing : ∀ b ∈ BUCKET_ORDER,
      ∃ c : Int, entriesFor (artist_raw records a) b = [⟨b, c⟩] :=
    fun b hb => entriesFor_singleton _ b (hdup b hb)
  have hmap0 : (artist_df records a).map (fun e => e.bucket) = BUCKET_ORDER := by
    rw [artist_df_eq]
    exact flatMap_buckets_of_singleton _ _ hsing
  have hmap : (artistSeries records a).map (fun x => x.bucket) = BUCKET_ORDER := by
    unfold artistSeries add_percent_share
    rw [List.map_map]
    exact hmap0
  refine ⟨?_, hmap, series_zero_when_absent records a⟩
  have hlen := congrArg List.length hmap
  rw [List.length_map] at hlen
  exact hlen

/-- C1 witness: the spec's example rows (two distinct buckets) yield the
full 11-bucket series in order. -/
theorem C1_witness :
    (artistSeries [⟨"A", some "00-10", 41⟩, ⟨"A", some "11-20", 143⟩] "A").length
        = BUCKET_ORDER.length
      ∧ (artistSeries [⟨"A", some "00-10", 41⟩, ⟨"A", some "11-20", 143⟩] "A").map
          (fun x => x.bucket) = BUCKET_ORDER :=
  ⟨(C1_series_shape [⟨"A", some "00-10", 41⟩, ⟨"A", some "11-20", 143⟩] "A"
      (by decide)).1,
   (C1_series_shape [⟨"A", some "00-10", 41⟩, ⟨"A", some "11-20", 143⟩] "A"
      (by decide)).2.1⟩

/-- C2 counterexample: two rows with the same artist and bucket are NOT
summed into a single entry — the series keeps one entry per duplicate row
(counts 5 and 7) — and normalization never raises a validation error: a
negative count loads successfully and flows through unchanged. -/
theorem C2_counterexample :
    ((artistSeries [⟨"A", some "00-10", 5⟩, ⟨"A", some "00-10", 7⟩] "A").filter
        (fun x => x.bucket == "00-10")).map (fun x => x.jobs_count) = [5, 7]
      ∧ load_dataset
          (fun _ => some ⟨EXPECTED, [⟨"A", "00-10", Cell.num (-3)⟩]⟩) "d.csv"
          = Except.ok [⟨"A", some "00-10", -3⟩] :=
  ⟨by decide, rfl⟩

/-- C2 amended: duplicate artist+bucket rows each keep their own series
entry (one merge row per duplicate, in input order): the per-bucket slice
of the series sums to the total of the artist's duplicate counts for that
bucket — totals stay consistent — and has one entry per duplicate (one
zero entry when there are none); and the pipeline never fails with a
validation error: loading succeeds for every well-columned existing file
regardless of count values (negative counts kept, non-numeric counts
already 0 after load). -/
theorem C2_duplicate_policy (records : List Record) (a b : String)
    (hb : b ∈ BUCKET_ORDER) :
    (((artistSeries records a).filter (fun x => x.bucket == b)).map
          (fun x => x.jobs_count)).sum
        = ((matchesFor (artist_raw records a) b).map
            (fun r => r.jobs_count)).sum
      ∧ ((artistSeries records a).filter (fun x => x.bucket == b)).length
          = max 1 (matchesFor (artist_raw records a) b).length
      ∧ ∀ (fs : String → Option Csv) (path : String) (csv : Csv),
          fs path = some csv →
          (EXPECTED.all (fun c => csv.columns.contains c)) = true →
          load_dataset fs path = Except.ok (csv.rows.map toRecord) := by
  have hfil : (artistSeries records a).filter (fun x => x.bucket == b)
      = ((artist_df records a).filter (fun e => e.bucket == b)).map (fun e =>
          ({ bucket := e.bucket, jobs_count := e.jobs_count
             pct_share :=
               if 0 < seriesTotal (artist_df records a)
               then (e.jobs_count : ℚ)
                 / (seriesTotal (artist_df records a) : ℚ) * 100 else 0
             bucket_label := displayLabel e.bucket } : ShareEntry)) :=
    filter_add_percent_share _ b
  have hent : (artist_df records a).filter (fun e => e.bucket == b)
      = entriesFor (artist_raw records a) b := by
    rw [artist_df_eq]
    exact filter_flatMap_entriesFor BUCKET_ORDER BUCKET_ORDER_nodup _ b hb
  refine ⟨?_, ?_, ?_⟩
  · rw [hfil, hent, List.map_map]
    exact entriesFor_count_sum _ b
  · rw [hfil, hent, List.length_map]
    exact entriesFor_length _ b
  · intro fs path csv hfs hcols
    rw [load_dataset_some fs path csv hfs, if_pos hcols]

/-- C2 witness: for the duplicated bucket `00-10` the series slice sums to
the duplicates' total. -/
theorem C2_witness :
    (((artistSeries [⟨"A", some "00-10", 5⟩, ⟨"A", some "00-10", 7⟩] "A").filter
          (fun x => x.bucket == "00-10")).map (fun x => x.jobs_count)).sum
      = ((matchesFor
            (artist_raw [⟨"A", some "00-10", 5⟩, ⟨"A", some "00-10", 7⟩] "A")
            "00-10").map (fun r => r.jobs_count)).sum :=
  (C2_duplicate_policy [⟨"A", some "00-10", 5⟩, ⟨"A", some "00-10", 7⟩]
    "A" "00-10" (by decide)).1

/-- C3 counterexample: a loaded row can carry a negative count (nothing
clamps it), making the artist's total -5, which is non-zero; yet the code's
guard is `total > 0` (app.py line 113), so pct_share is 0 there, not
jobs_count / total * 100. -/
theorem C3_counterexample :
    total_jobs (artistSeries [⟨"A", some "00-10", -5⟩] "A") ≠ 0
      ∧ ∃ x ∈ artistSeries [⟨"A", some "00-10", -5⟩] "A",
          x.pct_share
            ≠ (x.jobs_count : ℚ)
                / (total_jobs (artistSeries [⟨"A", some "00-10", -5⟩] "A") : ℚ)
                * 100 := by
  refine ⟨by decide, ⟨⟨"00-10", -5, 0, "00-10"⟩, by decide, ?_⟩⟩
  have ht : total_jobs (artistSeries [⟨"A", some "00-10", -5⟩] "A") = -5 := by
    decide
  rw [ht]
  show (0 : ℚ) ≠ ((-5 : Int) : ℚ) / ((-5 : Int) : ℚ) * 100
  push_cast
  norm_num

/-- C3 amended: pct_share is 0 whenever the total is ≤ 0 (the code's guard
is `total > 0`, and negative totals are reachable since negative counts are
never rejected) and jobs_count / total * 100 when the total is positive;
shares sum to exactly 100 (in exact rational arithmetic, hence within any
epsilon) when the total is positive, and every share is exactly 0
otherwise. -/
theorem C3_pct_share (records : List Record) (a : String) :
    (∀ x ∈ artistSeries records a,
        x.pct_share
          = if 0 < total_jobs (artistSeries records a)
            then (x.jobs_count : ℚ)
              / (total_jobs (artistSeries records a) : ℚ) * 100
            else 0)
      ∧ (0 < total_jobs (artistSeries records a) →
          ((artistSeries records a).map (fun x => x.pct_share)).sum = 100)
      ∧ (total_jobs (artistSeries records a) ≤ 0 →
          ∀ x ∈ artistSeries records a, x.pct_share = 0) := by
  have htot : total_jobs (artistSeries records a)
      = seriesTotal (artist_df records a) := total_jobs_add_percent_share _
  refine ⟨?_, ?_, ?_⟩
  · intro x hx
    obtain ⟨e, _, _, hj, hp, _⟩ :=
      add_percent_share_entry (artist_df records a) x hx
    rw [hp, htot, hj]
  · intro ht
    rw [htot] at ht
    exact sum_pct_share _ ht
  · intro ht x hx
    obtain ⟨e, _, _, _, hp, _⟩ :=
      add_percent_share_entry (artist_df records a) x hx
    rw [htot] at ht
    rw [hp, if_neg (not_lt.mpr ht)]

/-- C3 witness: the spec's example dataset (41 + 143 + 3 = 187 jobs) has a
positive total, so its shares sum to exactly 100. -/
theorem C3_witness :
    ((artistSeries [⟨"A", some "00-10", 41⟩, ⟨"A", some "11-20", 143⟩,
          ⟨"A", some "z100+", 3⟩] "A").map (fun x => x.pct_share)).sum = 100 :=
  (C3_pct_share [⟨"A", some "00-10", 41⟩, ⟨"A", some "11-20", 143⟩,
    ⟨"A", some "z100+", 3⟩] "A").2.1 (by decide)

/-- C6 counterexample: a numeric count of -5 is loaded as -5 — the coercion
of app.py line 88 does not produce a non-negative integer. -/
theorem C6_counterexample :
    load_dataset
        (fun _ => some ⟨EXPECTED, [⟨"A", "00-10", Cell.num (-5)⟩]⟩)
        "time_to_complete.csv"
      = Except.ok [⟨"A", some "00-10", -5⟩]
      ∧ (-5 : Int) < 0 :=
  ⟨rfl, by decide⟩

/-- C6 amended: `jobs_count` is coerced to an integer — non-numeric or
missing cells become 0, numeric cells keep their integer value even when
negative (no clamping, no rejection) — and the load never fails because of
a count value: with the file present and all required columns present it
returns all rows. -/
theorem C6_coercion (fs : String → Option Csv) (path : String) (csv : Csv)
    (hfs : fs path = some csv)
    (hcols : (EXPECTED.all (fun c => csv.columns.contains c)) = true) :
    load_dataset fs path = Except.ok (csv.rows.map toRecord)
      ∧ ∀ row ∈ csv.rows,
          (toRecord row).jobs_count
            = match row.jobs_count with
              | Cell.num n => n
              | Cell.missing => 0
              | Cell.text => 0 := by
  refine ⟨?_, ?_⟩
  · rw [load_dataset_some fs path csv hfs, if_pos hcols]
  · intro row _
    show coerce_jobs_count row.jobs_count = _
    cases row.jobs_count <;> rfl

/-- C6 witness: a file with a non-numeric cell and a negative numeric cell
loads without failure. -/
theorem C6_witness :
    load_dataset
        (fun _ => some ⟨EXPECTED,
          [⟨"A", "00-10", Cell.text⟩, ⟨"B", "11-20", Cell.num (-5)⟩]⟩) "x.csv"
      = Except.ok ([(⟨"A", "00-10", Cell.text⟩ : Row),
          ⟨"B", "11-20", Cell.num (-5)⟩].map toRecord) :=
  (C6_coercion
    (fun _ => some ⟨EXPECTED,
      [⟨"A", "00-10", Cell.text⟩, ⟨"B", "11-20", Cell.num (-5)⟩]⟩)
    "x.csv"
    ⟨EXPECTED, [⟨"A", "00-10", Cell.text⟩, ⟨"B", "11-20", Cell.num (-5)⟩]⟩
    rfl (by decide)).1
